import Mathlib

/-!
A shallow embedding, in Lean 4, of the decision core of the
`network-location-switcher` repository (two Python daemon copies:
`src/network-location-switcher.py` and
`src/network_loc_switcher/network_loc_switcher.py`).

External OS collaborators (`networksetup`, `ifconfig`, `scselect`,
notification tools, the filesystem) are modelled as environments supplying
the textual output / success status of each invoked command; side effects
of the switch path are modelled as an explicit effect trace.  Python string
operations used by the parsing code (`strip`, `lstrip`, `splitlines`,
`startswith`, `replace`, `find`, slicing, `in`) are embedded by `py...`
helper functions below with Python's semantics.

The file lists all definitions first, then all theorems.
-/

namespace NetLocSwitcher

/-- Python `str` whitespace set used by `str.strip()` / `str.lstrip()`. -/
def pyIsWs (c : Char) : Bool :=
  c == ' ' || c == '\t' || c == '\n' || c == '\x0d' || c == '\x0b' || c == '\x0c'

/-- Python `s.strip()`: drop leading and trailing whitespace. -/
def pyStrip (s : String) : String :=
  String.mk (((s.toList.dropWhile pyIsWs).reverse.dropWhile pyIsWs).reverse)

/-- Python `s.lstrip(cs)` for a one-character set: drop leading copies of `c`. -/
def pyLstripChar (c : Char) (s : String) : String :=
  String.mk (s.toList.dropWhile (· == c))

/-- Python `s.startswith(pre)`. -/
def pyStartsWith (s pre : String) : Bool :=
  List.isPrefixOf pre.toList s.toList

/-- Split a character list at newlines, accumulating the current line in
reverse. -/
def splitNl : List Char → List Char → List String
  | [], acc => [String.mk acc.reverse]
  | c :: cs, acc =>
    if c = '\n' then String.mk acc.reverse :: splitNl cs []
    else splitNl cs (c :: acc)

/-- Python `s.splitlines()` for LF-terminated text (the form produced by the
macOS command-line tools whose output the daemon parses): split on newline,
with no trailing empty entry and `[]` for the empty string. -/
def pySplitlines (s : String) : List String :=
  if s = "" then []
  else
    let parts := splitNl s.toList []
    match s.toList.getLast? with
    | some c => if c = '\n' then parts.dropLast else parts
    | none => parts

/-- Whether `pat` occurs as a contiguous run in `l`: checked at every
suffix. -/
def listInfixCheck : List Char → List Char → Bool
  | pat, [] => List.isPrefixOf pat []
  | pat, c :: cs => List.isPrefixOf pat (c :: cs) || listInfixCheck pat cs

/-- Python `needle in hay` for strings: substring containment. -/
def pyContains (hay needle : String) : Bool :=
  listInfixCheck needle.toList hay.toList

/-- Python `s.replace(pat, rep)` (all occurrences, leftmost first), by
fuelled recursion on the character list; the daemon only ever replaces the
fixed non-empty pattern `Device:`, so the empty-pattern guard returning `s`
unchanged is never reached. -/
def pyReplaceAux (pat rep : List Char) : Nat → List Char → List Char
  | _, [] => []
  | 0, l => l
  | fuel + 1, c :: cs =>
    if List.isPrefixOf pat (c :: cs) then
      rep ++ pyReplaceAux pat rep fuel (List.drop (pat.length - 1) cs)
    else c :: pyReplaceAux pat rep fuel cs

/-- Python `s.replace(pat, rep)` on strings. -/
def pyReplace (s pat rep : String) : String :=
  if pat = "" then s
  else String.mk (pyReplaceAux pat.toList rep.toList s.toList.length s.toList)

/-- Python truthiness of an `Optional[str]`: `None` and `""` are falsy. -/
def pyTruthy : Option String → Bool
  | none => false
  | some s => s ≠ ""

/-- Python `s.find(c)`: index of the first occurrence of `c`, or `-1`. -/
def pyFind (s : String) (c : Char) : Int :=
  match s.toList.findIdx? (· == c) with
  | some i => (i : Int)
  | none => -1

/-- Python slicing `s[a:b]` with possibly negative integer bounds. -/
def pySlice (s : String) (a b : Int) : String :=
  let l := s.toList
  let n := l.length
  let norm : Int → Nat := fun i =>
    if i < 0 then ((n : Int) + i).toNat else min i.toNat n
  String.mk ((l.take (norm b)).drop (norm a))

/-- Python `f"{x}"` rendering of an `Optional[str]`: `None` prints as the
word `None`, a string prints bare. -/
def pyShowOpt : Option String → String
  | none => "None"
  | some s => s

/-- An apostrophe (built from its code point to keep the source free of
quote-mark escapes); used to reproduce the daemon's log message texts. -/
def apos : String := String.mk [Char.ofNat 39]

/-- The validated mapping configuration the daemon's decision code reads
(module globals `SSID_LOCATION_MAP`, `DEFAULT_WIFI_LOCATION`,
`ETHERNET_LOCATION`, `LOG_FILE`). -/
structure Config where
  ssid_location_map : List (String × String)
  default_wifi_location : String
  ethernet_location : String
  log_file : String

/-- The connectivity facts `network_changed` probes at the start of a
decision cycle (`ssid = get_current_ssid()`, `wifi = wifi_active()`,
`wired = ethernet_active()`). -/
structure Snapshot where
  wifi_active : Bool
  current_ssid : Option String
  wired_active : Bool

/-- The target-resolution step inside `network_changed`
(`src/network_loc_switcher/network_loc_switcher.py`, lines 1010-1020),
parameterized by the probed snapshot: `if wired: ETHERNET_LOCATION
elif wifi and ssid: SSID_LOCATION_MAP.get(ssid, DEFAULT_WIFI_LOCATION)
else: DEFAULT_WIFI_LOCATION`. -/
def resolveTarget (cfg : Config) (s : Snapshot) : String :=
  if s.wired_active then cfg.ethernet_location
  else if s.wifi_active && pyTruthy s.current_ssid then
    (List.lookup (s.current_ssid.getD "") cfg.ssid_location_map).getD
      cfg.default_wifi_location
  else cfg.default_wifi_location

/-- The target-resolution step inside `network_changed` of the legacy copy
(`src/network-location-switcher.py`, lines 425-435), whose Python text is
identical to the packaged copy's. -/
def resolveTargetLegacy (cfg : Config) (s : Snapshot) : String :=
  if s.wired_active then cfg.ethernet_location
  else if s.wifi_active && pyTruthy s.current_ssid then
    (List.lookup (s.current_ssid.getD "") cfg.ssid_location_map).getD
      cfg.default_wifi_location
  else cfg.default_wifi_location

/-- The resolution rule as worded by the specification (section 4.1):
wired first; else Wi-Fi active with a non-empty SSID looks the SSID up in
the map, present gives the mapped profile and absent the default; every
other case gives the default Wi-Fi profile. -/
def specResolve (cfg : Config) (s : Snapshot) : String :=
  if s.wired_active then cfg.ethernet_location
  else
    match s.current_ssid with
    | some ssid =>
      if s.wifi_active = true ∧ ssid ≠ "" then
        match List.lookup ssid cfg.ssid_location_map with
        | some mapped => mapped
        | none => cfg.default_wifi_location
      else cfg.default_wifi_location
    | none => cfg.default_wifi_location

/-- Observable side effects of a decision cycle's switch path: log lines,
the `networksetup -switchtolocation` invocation, and the two notification
collaborator invocations (`notifytool`, `osascript`). -/
inductive Effect where
  | logMsg (msg : String)
  | switchCmd (target : String)
  | notifyToolCall (title message : String) (subtitle : Option String)
  | osascriptCall (title message : String)
  deriving DecidableEq

/-- The spec's Decision record (section 3), minus the wall-clock timestamp:
the target profile, the previously active profile, and whether an OS switch
was issued and succeeded this cycle. -/
structure Decision where
  target_profile : String
  previous_profile : Option String
  switched : Bool

/-- Environment of external collaborator outcomes for one run of
`switch_location`: the parsed `get_current_location()` result, the outcome
of the `networksetup -switchtolocation` invocation (`error e` models a
raised `CalledProcessError` rendered as `e`), and the notification
helpers' availability / success booleans. -/
structure SwitchEnv where
  currentLocation : Option String
  switchResult : Except String Unit
  notifytoolFound : Bool
  notifytoolOk : Bool
  osascriptOk : Bool

/-- Log line `f"Current location: {current}, target: {target}"`. -/
def headerMsg (current : Option String) (target : String) : String :=
  "Current location: " ++ pyShowOpt current ++ ", target: " ++ target

/-- Log line `f"Already on location: {target}"`. -/
def alreadyMsg (target : String) : String :=
  "Already on location: " ++ target

/-- Log line for a successful switch. -/
def switchedMsg (target : String) : String :=
  "Switched network location → " ++ target

/-- Log line for a failed switch, quoting the target and the error. -/
def failedSwitchMsg (target e : String) : String :=
  "Failed to switch to location " ++ apos ++ target ++ apos ++ ": " ++ e

/-- Title of the success notification. -/
def notifyTitle : String := "Network Location Switched"

/-- Body of the success notification, quoting the target. -/
def notifyBody (target : String) : String :=
  "Switched to " ++ apos ++ target ++ apos ++ " network location"

/-- Log line written when both notification methods fail. -/
def notifyFailLog (title message : String) : String :=
  "Could not send notification: " ++ title ++ " - " ++ message

/-- Embedding of `send_notification_notifytool`: returns `False` with no
invocation when the NotifyTool binary is absent; otherwise invokes the tool
(one collaborator call, whose internal root/console-user plumbing sits
behind the returned success boolean, the function's declared `-> bool`
contract; its internal exception handler returns `False`, never raises). -/
def send_notification_notifytool (env : SwitchEnv)
    (title message : String) (subtitle : Option String) :
    Bool × List Effect :=
  if env.notifytoolFound then
    (env.notifytoolOk, [Effect.notifyToolCall title message subtitle])
  else (false, [])

/-- Embedding of `send_notification_osascript`: always invokes `osascript`
(again one collaborator call behind a success boolean; its exception
handler returns `False`, never raises). -/
def send_notification_osascript (env : SwitchEnv)
    (title message : String) : Bool × List Effect :=
  (env.osascriptOk, [Effect.osascriptCall title message])

/-- Embedding of `send_notification`: try NotifyTool first and stop on
success; otherwise fall back to `osascript`, logging (only) when that also
fails.  Total: a notification failure produces a log effect, never an
exception. -/
def send_notification (env : SwitchEnv)
    (title message : String) (subtitle : Option String) : List Effect :=
  let r1 := send_notification_notifytool env title message subtitle
  if r1.1 then r1.2
  else
    let r2 := send_notification_osascript env title message
    r1.2 ++ r2.2 ++
      (if r2.1 then [] else [Effect.logMsg (notifyFailLog title message)])

/-- Embedding of `switch_location` from
`src/network_loc_switcher/network_loc_switcher.py` (lines 982-999),
returning the cycle's Decision together with its ordered effect trace.
Python's `current != target` comparison of an `Optional[str]` against a
`str` is `current ≠ some target` (a `None` current is unequal to every
target). -/
def switch_location (env : SwitchEnv) (target : String) :
    Decision × List Effect :=
  let current := env.currentLocation
  let header := Effect.logMsg (headerMsg current target)
  if current ≠ some target then
    match env.switchResult with
    | Except.ok _ =>
      (⟨target, current, true⟩,
        header :: Effect.switchCmd target ::
          Effect.logMsg (switchedMsg target) ::
          send_notification env notifyTitle (notifyBody target) none)
    | Except.error e =>
      (⟨target, current, false⟩,
        [header, Effect.switchCmd target,
          Effect.logMsg (failedSwitchMsg target e)])
  else
    (⟨target, current, false⟩, [header, Effect.logMsg (alreadyMsg target)])

/-- Recognizes the OS switch command in a trace. -/
def isSwitchCmd : Effect → Bool
  | Effect.switchCmd _ => true
  | _ => false

/-- Recognizes a notification-collaborator invocation in a trace. -/
def isNotifyCall : Effect → Bool
  | Effect.notifyToolCall _ _ _ => true
  | Effect.osascriptCall _ _ => true
  | _ => false

/-- Environment of external command outputs for one probe cycle.  Each
field holds the (already `strip`ed, as `run_command` strips) stdout of one
collaborator invocation; a failed invocation is the empty string, exactly
what `run_command` returns on `CalledProcessError`. -/
structure ProbeEnv where
  portsOut : String
  preferredOut : String → String
  ifconfigGrepOut : String → String
  ifconfigOut : String → String

/-- The scan inside `get_wifi_interface`: find the first line starting with
`Hardware Port: Wi-Fi` that is immediately followed by a `Device:` line,
and return that device name (all `Device:` occurrences removed, then
stripped); scanning continues past a Wi-Fi line not followed by a Device
line, as the Python loop only breaks inside the inner conditional. -/
def findWifiDevice : List String → Option String
  | [] => none
  | line :: rest =>
    if pyStartsWith line "Hardware Port: Wi-Fi" then
      match rest with
      | [] => none
      | next :: _ =>
        if pyStartsWith next "Device:" then
          some (pyStrip (pyReplace next "Device:" ""))
        else findWifiDevice rest
    else findWifiDevice rest

/-- Embedding of `get_wifi_interface`: `None` on an empty hardware-port
listing, on no Wi-Fi port found, and on an empty device name (Python's
`if wifi_device:` truthiness test). -/
def get_wifi_interface (ports : String) : Option String :=
  if ports = "" then none
  else
    match findWifiDevice (pySplitlines ports) with
    | none => none
    | some d => if d = "" then none else some d

/-- Embedding of `wifi_active`: `False` without a Wi-Fi interface, else
whether `ifconfig <iface> | grep` reports `status: active`.  (The probe's
log calls carry no data and are omitted from this value-level model.) -/
def wifi_active (env : ProbeEnv) : Bool :=
  match get_wifi_interface env.portsOut with
  | none => false
  | some iface => pyContains (env.ifconfigGrepOut iface) "status: active"

/-- Embedding of `get_current_ssid`: `None` without a Wi-Fi interface or on
empty preferred-network output; otherwise the second output line, stripped,
when at least two lines exist (`lstrip("\t")` after `strip()` is the
identity, tabs being whitespace), and `None` otherwise. -/
def get_current_ssid (env : ProbeEnv) : Option String :=
  match get_wifi_interface env.portsOut with
  | none => none
  | some iface =>
    let output := env.preferredOut iface
    if output = "" then none
    else
      match pySplitlines output with
      | _ :: second :: _ =>
        some (pyLstripChar '\t' (pyStrip second))
      | _ => none

/-- The candidate wired ports `ethernet_active` collects: every `Device:`
line's stripped name that differs from the Wi-Fi interface (a `None`
interface differs from every string) and from `lo0` and starts with `en`. -/
def ethernetPorts (env : ProbeEnv) : List String :=
  let wifiIface := get_wifi_interface env.portsOut
  (pySplitlines env.portsOut).filterMap (fun line =>
    if pyStartsWith line "Device:" then
      let device := pyStrip (pyReplace line "Device:" "")
      if ((match wifiIface with
            | some w => device != w
            | none => true) && device != "lo0" &&
          pyStartsWith device "en") = true then
        some device
      else none
    else none)

/-- Embedding of `ethernet_active`: `False` on an empty port listing, else
whether some candidate wired port's `ifconfig` output contains both
`status: active` and `inet `. -/
def ethernet_active (env : ProbeEnv) : Bool :=
  if env.portsOut = "" then false
  else
    (ethernetPorts env).any (fun port =>
      pyContains (env.ifconfigOut port) "status: active" &&
        pyContains (env.ifconfigOut port) "inet ")

/-- Embedding of `get_current_location`: input `none` models an `scselect`
invocation that raised (swallowed by the bare `except`); otherwise find the
first output line whose stripped form starts with `*`, strip asterisks and
whitespace, and slice between the first `(` and the first `)`. -/
def get_current_location (scselectOut : Option String) : Option String :=
  match scselectOut with
  | none => none
  | some out =>
    match (pySplitlines out).find?
        (fun line => pyStartsWith (pyStrip line) "*") with
    | none => none
    | some line =>
      let location := pyStrip (pyLstripChar '*' (pyStrip line))
      some (pySlice location (pyFind location '(' + 1) (pyFind location ')'))

/-- Whether the profile-listing output has no line marked active with `*`:
either the `scselect` call raised (`none`) or no stripped line starts with
an asterisk. -/
def noActiveStar : Option String → Bool
  | none => true
  | some out =>
    (pySplitlines out).all (fun line => !pyStartsWith (pyStrip line) "*")

/-- A concrete probe environment whose Wi-Fi interface `en0` reports an
active link but no `inet ` address. -/
def wifiNoInetEnv : ProbeEnv :=
  ProbeEnv.mk "Hardware Port: Wi-Fi\nDevice: en0"
    (fun _ => "") (fun _ => "status: active") (fun _ => "")

/-- Embedding of `switch_location` from the legacy copy
(`src/network-location-switcher.py`, lines 401-414): identical to the
packaged copy's except that no notification is sent after a successful
switch. -/
def switch_location_legacy (env : SwitchEnv) (target : String) :
    Decision × List Effect :=
  let current := env.currentLocation
  let header := Effect.logMsg (headerMsg current target)
  if current ≠ some target then
    match env.switchResult with
    | Except.ok _ =>
      (⟨target, current, true⟩,
        [header, Effect.switchCmd target,
          Effect.logMsg (switchedMsg target)])
    | Except.error e =>
      (⟨target, current, false⟩,
        [header, Effect.switchCmd target,
          Effect.logMsg (failedSwitchMsg target e)])
  else
    (⟨target, current, false⟩, [header, Effect.logMsg (alreadyMsg target)])

/-- A JSON-decoded Python value as far as `validate_config` inspects it:
a string, a dictionary, or anything else (number, list, boolean, null). -/
inductive PyVal where
  | vStr (s : String)
  | vDict (entries : List (String × PyVal))
  | vOther

/-- The uncaught exceptions `validate_config` can raise at module load:
`nameError` models `log()` reading the global `LOG_FILE`, which is bound
only after `validate_config` returns (the handler in `log` catches only
`OSError`); `typeError` models `os.path.dirname` applied to a non-string
`log_file` value. -/
inductive PyErr where
  | nameError
  | typeError
  deriving DecidableEq

/-- The `defaults` table of `validate_config`
(`src/network_loc_switcher/network_loc_switcher.py`, lines 395-400), in
its Python iteration order. -/
def configDefaults : List (String × PyVal) :=
  [("ssid_location_map", PyVal.vDict []),
    ("default_wifi_location", PyVal.vStr "Automatic"),
    ("ethernet_location", PyVal.vStr "Wired"),
    ("log_file", PyVal.vStr "/usr/local/log/network_loc_switcher.log")]

/-- Python `os.path.dirname` for POSIX paths: everything up to the last
slash, trailing slashes stripped unless the head is all slashes. -/
def pyDirname (p : String) : String :=
  let l := p.toList
  match l.reverse.findIdx? (· == '/') with
  | none => ""
  | some r =>
    let head := l.take (l.length - r)
    if head.all (· == '/') then String.mk head
    else String.mk (head.reverse.dropWhile (· == '/')).reverse

/-- Filesystem collaborator for `validate_config`: `os.path.exists`. -/
structure FS where
  pathExists : String → Bool

/-- Embedding of `validate_config`
(`src/network_loc_switcher/network_loc_switcher.py`, lines 392-429).
`validate_config` is invoked once at module load
(`CONFIG = validate_config(load_config())`, line 433) — before the global
`LOG_FILE` is assigned (line 437).  `log()` reads `LOG_FILE` at call time
and its handler catches only `OSError`, so every `log(...)` call inside
`validate_config` raises an uncaught `NameError`: the missing-key warning
in the defaulting loop, the non-dict SSID-map error, and both branches of
the absent-log-directory check (the `makedirs` success log as well as the
fallback warning).  `os.path.dirname` on a non-string `log_file` raises
`TypeError`.  The function therefore returns (its input unchanged) only
when nothing needs fixing: all four keys present, `ssid_location_map` a
dict, and the string `log_file`'s directory empty or existing.  The
`log_file`-absent arm after the defaulting check is unreachable, the check
having required all of `configDefaults`' keys to be present. -/
def validate_config (fs : FS) (config : List (String × PyVal)) :
    Except PyErr (List (String × PyVal)) :=
  if configDefaults.any (fun kv => (List.lookup kv.1 config).isNone) then
    Except.error PyErr.nameError
  else
    match List.lookup "ssid_location_map" config with
    | some (PyVal.vDict _) =>
      match List.lookup "log_file" config with
      | some (PyVal.vStr lf) =>
        let logDir := pyDirname lf
        if logDir != "" && !fs.pathExists logDir then
          Except.error PyErr.nameError
        else Except.ok config
      | some _ => Except.error PyErr.typeError
      | none => Except.error PyErr.nameError
    | _ => Except.error PyErr.nameError

/-- A filesystem in which no directory exists. -/
def fsNoDirs : FS := FS.mk (fun _ => false)

/-- A list is a prefix of itself followed by anything. -/
theorem isPrefixOf_append_self (l t : List Char) :
    List.isPrefixOf l (l ++ t) = true := by
  induction l with
  | nil => simp [List.isPrefixOf]
  | cons a as ih => simp [List.isPrefixOf, ih]

/-- A prefix occurrence is an occurrence. -/
theorem listInfixCheck_of_isPrefixOf (pat l : List Char)
    (h : List.isPrefixOf pat l = true) : listInfixCheck pat l = true := by
  cases l with
  | nil => exact h
  | cons c cs => simp [listInfixCheck, h]

/-- Any exhibited middle run is found by `listInfixCheck`. -/
theorem listInfixCheck_append (s pat t : List Char) :
    listInfixCheck pat (s ++ pat ++ t) = true := by
  induction s with
  | nil =>
    exact listInfixCheck_of_isPrefixOf pat (pat ++ t)
      (isPrefixOf_append_self pat t)
  | cons a s' ih =>
    simp only [List.cons_append]
    rw [listInfixCheck]
    have ih' : listInfixCheck pat (s' ++ (pat ++ t)) = true := by
      simpa [List.append_assoc] using ih
    simp [ih']

/-- Strings are contained in concatenations that exhibit them in the
middle; used for the log-content claims. -/
theorem pyContains_middle (pre mid post : String) :
    pyContains (pre ++ mid ++ post) mid = true := by
  have hdata : (pre ++ mid ++ post).toList =
      pre.toList ++ mid.toList ++ post.toList := by
    show (pre ++ mid ++ post).data = pre.data ++ mid.data ++ post.data
    simp [String.data_append]
  show listInfixCheck mid.toList (pre ++ mid ++ post).toList = true
  rw [hdata]
  exact listInfixCheck_append pre.toList mid.toList post.toList

/-- C1: for every state snapshot and every mapping configuration, the
target-resolution step inside `network_changed` returns exactly what the
specification prescribes: the wired profile when `wired_active`; else the
SSID-mapped profile (default when unmapped) for an active Wi-Fi link with a
non-empty SSID; else the default Wi-Fi profile. -/
theorem resolve_matches_spec (cfg : Config) (s : Snapshot) :
    resolveTarget cfg s = specResolve cfg s := by
  rcases s with ⟨wifi, ssid, wired⟩
  cases wired <;> cases wifi <;> cases ssid <;>
    simp [resolveTarget, specResolve, pyTruthy]
  case false.true.some x =>
    by_cases hx : x = ""
    · simp [hx]
    · simp only [hx, ne_eq, not_false_eq_true, and_self, if_true, Option.getD_some]
      cases List.lookup x cfg.ssid_location_map <;> simp

/-- C2: the wired link always takes precedence — whenever
`wired_active = true` the resolution returns the configured wired profile,
regardless of the Wi-Fi flag and SSID. -/
theorem wired_precedence (cfg : Config) (s : Snapshot)
    (h : s.wired_active = true) :
    resolveTarget cfg s = cfg.ethernet_location := by
  simp [resolveTarget, h]

/-- Witness for C2 at a concrete snapshot with Wi-Fi active and a mapped
SSID, where the resolution still returns the wired profile. -/
theorem wired_precedence_witness :
    (Snapshot.mk true (some "HomeNet") true).wired_active = true ∧
    resolveTarget
      (Config.mk [("HomeNet", "Home")] "Automatic" "Wired" "/tmp/x.log")
      (Snapshot.mk true (some "HomeNet") true) = "Wired" :=
  ⟨rfl, wired_precedence
    (Config.mk [("HomeNet", "Home")] "Automatic" "Wired" "/tmp/x.log")
    (Snapshot.mk true (some "HomeNet") true) rfl⟩

/-- C9: the two daemon copies implement the same decision mapping — for
every configuration and every combination of SSID, Wi-Fi flag and wired
flag, the target computed by `network_changed` in
`src/network-location-switcher.py` equals the one computed in
`src/network_loc_switcher/network_loc_switcher.py`; and the copies differ
only in the notification side effect inside `switch_location`: for every
environment and target the two `switch_location`s produce the same
Decision, and the packaged copy's effect trace is the legacy copy's trace,
either unchanged or followed by the notification effects of a successful
switch. -/
theorem copies_agree (cfg : Config) (s : Snapshot)
    (env : SwitchEnv) (target : String) :
    resolveTarget cfg s = resolveTargetLegacy cfg s ∧
    (switch_location_legacy env target).1 = (switch_location env target).1 ∧
    ((switch_location env target).2 = (switch_location_legacy env target).2 ∨
      (switch_location env target).2 =
        (switch_location_legacy env target).2 ++
          send_notification env notifyTitle (notifyBody target) none) := by
  refine ⟨rfl, ?_, ?_⟩
  · by_cases hc : env.currentLocation = some target
    · simp [switch_location, switch_location_legacy, hc]
    · cases hres : env.switchResult with
      | ok u => simp [switch_location, switch_location_legacy, hc, hres]
      | error e => simp [switch_location, switch_location_legacy, hc, hres]
  · by_cases hc : env.currentLocation = some target
    · left
      simp [switch_location, switch_location_legacy, hc]
    · cases hres : env.switchResult with
      | ok u =>
        right
        simp [switch_location, switch_location_legacy, hc, hres]
      | error e =>
        left
        simp [switch_location, switch_location_legacy, hc, hres]

/-- C3: idempotence of the switch executor — when the current profile
equals the target under exact string equality, `switch_location` issues no
OS switch command and the decision records `switched = false`; hence a
repeated trigger for an unchanged state never repeats the external call. -/
theorem switch_idempotent (env : SwitchEnv) (target : String)
    (h : env.currentLocation = some target) :
    (switch_location env target).2.countP (fun x => isSwitchCmd x) = 0 ∧
    (switch_location env target).1.switched = false := by
  constructor <;> simp [switch_location, h, isSwitchCmd]

/-- Witness for C3 at a concrete environment already on the target. -/
theorem switch_idempotent_witness :
    (SwitchEnv.mk (some "Home") (Except.ok ()) false false true).currentLocation
      = some "Home" ∧
    ((switch_location
        (SwitchEnv.mk (some "Home") (Except.ok ()) false false true)
        "Home").2.countP (fun x => isSwitchCmd x) = 0 ∧
      (switch_location
        (SwitchEnv.mk (some "Home") (Except.ok ()) false false true)
        "Home").1.switched = false) :=
  ⟨rfl, switch_idempotent
    (SwitchEnv.mk (some "Home") (Except.ok ()) false false true) "Home" rfl⟩

/-- C5: when the OS switch command fails, `switch_location` catches the
error (the embedding stays total), writes a log entry containing the
attempted target name and the error detail, issues the switch exactly once
(no retry within the cycle), and records `switched = false`. -/
theorem switch_failure_logged (env : SwitchEnv) (target e : String)
    (hne : env.currentLocation ≠ some target)
    (herr : env.switchResult = Except.error e) :
    (switch_location env target).2.countP (fun x => isSwitchCmd x) = 1 ∧
    Effect.logMsg (failedSwitchMsg target e) ∈ (switch_location env target).2 ∧
    pyContains (failedSwitchMsg target e) target = true ∧
    pyContains (failedSwitchMsg target e) e = true ∧
    (switch_location env target).1.switched = false := by
  refine ⟨?_, ?_, ?_, ?_, ?_⟩
  · simp [switch_location, hne, herr, isSwitchCmd]
  · simp [switch_location, hne, herr]
  · have h := pyContains_middle ("Failed to switch to location " ++ apos)
      target (apos ++ ": " ++ e)
    have heq : "Failed to switch to location " ++ apos ++ target ++
        (apos ++ ": " ++ e) = failedSwitchMsg target e := by
      simp [failedSwitchMsg, String.append_assoc]
    rwa [heq] at h
  · have h := pyContains_middle
      ("Failed to switch to location " ++ apos ++ target ++ apos ++ ": ")
      e ""
    have heq : "Failed to switch to location " ++ apos ++ target ++ apos ++
        ": " ++ e ++ "" = failedSwitchMsg target e := by
      simp [failedSwitchMsg]
    rwa [heq] at h
  · simp [switch_location, hne, herr]

/-- Witness for C5 at a concrete failing environment. -/
theorem switch_failure_logged_witness :
    ((SwitchEnv.mk none (Except.error "boom") false false true).currentLocation
        ≠ some "Work") ∧
    ((SwitchEnv.mk none (Except.error "boom") false false true).switchResult
        = Except.error "boom") ∧
    ((switch_location (SwitchEnv.mk none (Except.error "boom") false false true)
        "Work").2.countP (fun x => isSwitchCmd x) = 1 ∧
      Effect.logMsg (failedSwitchMsg "Work" "boom") ∈
        (switch_location (SwitchEnv.mk none (Except.error "boom") false false true)
          "Work").2 ∧
      pyContains (failedSwitchMsg "Work" "boom") "Work" = true ∧
      pyContains (failedSwitchMsg "Work" "boom") "boom" = true ∧
      (switch_location (SwitchEnv.mk none (Except.error "boom") false false true)
        "Work").1.switched = false) :=
  ⟨by decide, rfl,
    switch_failure_logged
      (SwitchEnv.mk none (Except.error "boom") false false true)
      "Work" "boom" (by decide) rfl⟩

/-- C6: in a cycle that performs a switch, the effects occur strictly in
the order switch command, then outcome log, then the notification attempt;
the trace shape holds for every notification outcome (a notification
failure yields only a further log effect and never prevents completion);
and whenever the decision records `switched = false` the trace holds no
notification invocation at all. -/
theorem switch_effect_order (env : SwitchEnv) (target : String)
    (hne : env.currentLocation ≠ some target)
    (hok : env.switchResult = Except.ok ()) :
    (switch_location env target).2 =
      Effect.logMsg (headerMsg env.currentLocation target) ::
        Effect.switchCmd target ::
        Effect.logMsg (switchedMsg target) ::
        send_notification env notifyTitle (notifyBody target) none ∧
    (∀ (env2 : SwitchEnv) (t2 : String),
      (switch_location env2 t2).1.switched = false →
      (switch_location env2 t2).2.all (fun x => !isNotifyCall x) = true) := by
  constructor
  · simp [switch_location, hne, hok]
  · intro env2 t2 h
    by_cases hc : env2.currentLocation = some t2
    · simp [switch_location, hc, isNotifyCall]
    · cases hres : env2.switchResult with
      | ok u =>
        exfalso
        simp [switch_location, hc, hres] at h
      | error e =>
        simp [switch_location, hc, hres, isNotifyCall]

/-- Witness for C6 at a concrete environment whose switch succeeds but
whose notification collaborators both fail. -/
theorem switch_effect_order_witness :
    ((SwitchEnv.mk (some "Home") (Except.ok ()) true false false).currentLocation
        ≠ some "Wired") ∧
    ((SwitchEnv.mk (some "Home") (Except.ok ()) true false false).switchResult
        = Except.ok ()) ∧
    ((switch_location (SwitchEnv.mk (some "Home") (Except.ok ()) true false false)
        "Wired").2 =
      Effect.logMsg (headerMsg (some "Home") "Wired") ::
        Effect.switchCmd "Wired" ::
        Effect.logMsg (switchedMsg "Wired") ::
        send_notification (SwitchEnv.mk (some "Home") (Except.ok ()) true false false)
          notifyTitle (notifyBody "Wired") none ∧
      (∀ (env2 : SwitchEnv) (t2 : String),
        (switch_location env2 t2).1.switched = false →
        (switch_location env2 t2).2.all (fun x => !isNotifyCall x) = true)) :=
  ⟨by decide, rfl,
    switch_effect_order
      (SwitchEnv.mk (some "Home") (Except.ok ()) true false false)
      "Wired" (by decide) rfl⟩

/-- C4: the active-profile reader returns `None` — never an error, the
embedding being a total function — whenever the listing collaborator's
output cannot be parsed (the call raised) or no line is marked active with
`*`; and a `None` current profile is unequal to every target, so the
engine still issues the switch attempt. -/
theorem current_location_none_degrades (out : Option String)
    (h : noActiveStar out = true) :
    get_current_location out = none ∧
    ∀ (env : SwitchEnv) (t : String), env.currentLocation = none →
      Effect.switchCmd t ∈ (switch_location env t).2 := by
  constructor
  · cases out with
    | none => rfl
    | some s =>
      simp only [noActiveStar, List.all_eq_true] at h
      simp only [get_current_location]
      have hfind : (pySplitlines s).find?
          (fun line => pyStartsWith (pyStrip line) "*") = none := by
        rw [List.find?_eq_none]
        intro x hx
        simpa using h x hx
      rw [hfind]
  · intro env t hnone
    have hne : env.currentLocation ≠ some t := by simp [hnone]
    cases hres : env.switchResult with
    | ok u => simp [switch_location, hne, hres]
    | error e => simp [switch_location, hne, hres]

/-- Witness for C4 on a listing with no starred line and an environment
with unknown current profile. -/
theorem current_location_none_degrades_witness :
    noActiveStar (some "Defined sets include:\n (0) Automatic") = true ∧
    (get_current_location (some "Defined sets include:\n (0) Automatic")
        = none ∧
      ∀ (env : SwitchEnv) (t : String), env.currentLocation = none →
        Effect.switchCmd t ∈ (switch_location env t).2) :=
  ⟨by decide,
    current_location_none_degrades
      (some "Defined sets include:\n (0) Automatic") (by decide)⟩

/-- C7: probe degradation — whenever the Wi-Fi interface cannot be
determined, `wifi_active` is `false` and `get_current_ssid` is `None`;
moreover an empty preferred-network listing gives a `None` SSID, an empty
hardware-port listing makes every probe field inactive/absent, and an
empty (failed) `ifconfig` sub-query makes `wifi_active` false — all
without an error, the embedded probes being total functions. -/
theorem probe_degrades (env : ProbeEnv)
    (h : get_wifi_interface env.portsOut = none) :
    wifi_active env = false ∧ get_current_ssid env = none ∧
    (∀ env2 : ProbeEnv, (∀ i, env2.preferredOut i = "") →
      get_current_ssid env2 = none) ∧
    (∀ env3 : ProbeEnv, env3.portsOut = "" →
      get_wifi_interface env3.portsOut = none ∧
      wifi_active env3 = false ∧
      get_current_ssid env3 = none ∧
      ethernet_active env3 = false) ∧
    (∀ env4 : ProbeEnv, (∀ i, env4.ifconfigGrepOut i = "") →
      wifi_active env4 = false) := by
  refine ⟨?_, ?_, ?_, ?_, ?_⟩
  · simp [wifi_active, h]
  · simp [get_current_ssid, h]
  · intro env2 hpref
    simp only [get_current_ssid]
    cases get_wifi_interface env2.portsOut with
    | none => rfl
    | some iface => simp [hpref iface]
  · intro env3 hports
    have hw : get_wifi_interface env3.portsOut = none := by
      simp [get_wifi_interface, hports]
    exact ⟨hw, by simp [wifi_active, hw], by simp [get_current_ssid, hw],
      by simp [ethernet_active, hports]⟩
  · intro env4 hgrep
    simp only [wifi_active]
    cases get_wifi_interface env4.portsOut with
    | none => rfl
    | some iface =>
      simp only [hgrep iface, pyContains]
      decide

/-- Witness for C7 at a port listing holding no Wi-Fi hardware port. -/
theorem probe_degrades_witness :
    get_wifi_interface
      (ProbeEnv.mk "Hardware Port: Ethernet\nDevice: en1"
        (fun _ => "") (fun _ => "") (fun _ => "")).portsOut = none ∧
    (wifi_active
        (ProbeEnv.mk "Hardware Port: Ethernet\nDevice: en1"
          (fun _ => "") (fun _ => "") (fun _ => "")) = false ∧
      get_current_ssid
        (ProbeEnv.mk "Hardware Port: Ethernet\nDevice: en1"
          (fun _ => "") (fun _ => "") (fun _ => "")) = none ∧
      (∀ env2 : ProbeEnv, (∀ i, env2.preferredOut i = "") →
        get_current_ssid env2 = none) ∧
      (∀ env3 : ProbeEnv, env3.portsOut = "" →
        get_wifi_interface env3.portsOut = none ∧
        wifi_active env3 = false ∧
        get_current_ssid env3 = none ∧
        ethernet_active env3 = false) ∧
      (∀ env4 : ProbeEnv, (∀ i, env4.ifconfigGrepOut i = "") →
        wifi_active env4 = false)) :=
  ⟨by decide,
    probe_degrades
      (ProbeEnv.mk "Hardware Port: Ethernet\nDevice: en1"
        (fun _ => "") (fun _ => "") (fun _ => "")) (by decide)⟩

/-- C10: `ethernet_active` is `true` exactly when some hardware device
other than the detected Wi-Fi interface and `lo0`, whose name starts with
`en`, reports both `status: active` and an `inet ` address in its
`ifconfig` output — so a wired link that is up without an IPv4 address is
reported inactive; `wifi_active`, by contrast, checks link status only, as
the concrete environment `wifiNoInetEnv` (active link, no `inet `)
demonstrates. -/
theorem ethernet_requires_inet (env : ProbeEnv) :
    (ethernet_active env = true ↔
      ∃ port ∈ ethernetPorts env,
        pyContains (env.ifconfigOut port) "status: active" = true ∧
        pyContains (env.ifconfigOut port) "inet " = true) ∧
    wifi_active wifiNoInetEnv = true ∧
    pyContains (wifiNoInetEnv.ifconfigGrepOut "en0") "inet " = false := by
  refine ⟨?_, by decide, by decide⟩
  by_cases hports : env.portsOut = ""
  · constructor
    · intro h
      simp [ethernet_active, hports] at h
    · rintro ⟨port, hmem, -⟩
      simp [ethernetPorts, hports, pySplitlines] at hmem
  · simp [ethernet_active, hports, List.any_eq_true, Bool.and_eq_true]


/-- C8: the code contradicts the claim's (and the spec section 7's)
intent.  On the empty configuration — every key missing — `validate_config`
raises an uncaught `NameError` at its very first missing-key warning,
instead of returning a fully-defaulted configuration: it runs at module
load before the global `LOG_FILE` is bound, and `log`'s handler catches
only `OSError`.  A complete, well-typed configuration needing no fixes
passes through unchanged. -/
theorem validate_config_name_error :
    validate_config fsNoDirs [] = Except.error PyErr.nameError ∧
    validate_config fsNoDirs
        [("ssid_location_map", PyVal.vDict []),
          ("default_wifi_location", PyVal.vStr "Automatic"),
          ("ethernet_location", PyVal.vStr "Wired"),
          ("log_file", PyVal.vStr "network.log")] =
      Except.ok
        [("ssid_location_map", PyVal.vDict []),
          ("default_wifi_location", PyVal.vStr "Automatic"),
          ("ethernet_location", PyVal.vStr "Wired"),
          ("log_file", PyVal.vStr "network.log")] :=
  ⟨rfl, rfl⟩

end NetLocSwitcher
